import Mathlib

/-!
Shallow embedding of the redalert-bot wallet-monitoring engine.

The definitions below are translated from the JavaScript sources:
  * `src/services/transactionMonitor.js` — class `TransactionMonitor`
  * `src/services/threatAnalyzer.js` — class `ThreatAnalyzer`
  * the bot file (unnamed) — `handleThreatDetected` and the global
    `threatAlerts` map.

Conventions of the embedding:
  * JS `Map` objects become association lists with JS `Map` semantics
    (`mapSet` replaces in place or appends, `mapDelete`, `mapGet`).
  * Exceptions thrown by external calls (RPC provider, HTTP client) are
    modelled by `Except Unit` oracles passed as arguments; a JS
    `try/catch` becomes a `match` on the oracle result.
  * `Date.now()` becomes an explicit `now : Int` argument.
  * JS string handling (`toLowerCase`, `includes`, the regex
    `/transfer.*?(\d+)/i`, the regex `/\x7b[\s\S]*\x7d/`) is implemented
    over `List Char`.
  * `JSON.parse` (a platform library, not repository code) is modelled
    as an explicit parameter `jsonParse`; returning `none` models a
    parse exception.
  * The floating-point division in the transaction-frequency check is
    modelled by the exact integer comparison it denotes
    (`count / ((now-last)/60000) > 2` ⟺ `60000*count > 2*(now-last)`
    for a positive window, `Infinity > 2` ⟺ true for a zero window,
    and false for a negative window).
-/

namespace RedAlert

/-! ### String utilities (JS `toLowerCase` / `includes`) -/

/-- Lower-case a string into its character list (JS `toLowerCase` on the
ASCII strings used by the heuristics). -/
def lowerChars (s : String) : List Char :=
  s.data.map Char.toLower

/-- `subOf n h` is true when `n` occurs as a contiguous sublist of `h`
(JS `String.prototype.includes`). -/
def subOf (n : List Char) : List Char → Bool
  | [] => n.isEmpty
  | c :: t => n.isPrefixOf (c :: t) || subOf n t

/-- `strIncludes h n`: JS `h.toLowerCase().includes(n.toLowerCase())`. -/
def strIncludes (h n : String) : Bool :=
  subOf (lowerChars n) (lowerChars h)

/-! ### Data model -/

/-- Solana account info as consumed by the monitor (only `lamports` is
inspected). -/
structure AccountInfo where
  lamports : Int
deriving Repr, DecidableEq

/-- `transaction.meta` fields inspected by `analyzeTransaction`. -/
structure TxMeta where
  err : Bool
  preBalances : List Int
  postBalances : List Int
deriving Repr, DecidableEq

/-- A fetched transaction: `meta`, plus
`transaction.transaction?.message?.accountKeys || []`. -/
structure Transaction where
  meta : Option TxMeta
  accountKeys : List String
deriving Repr, DecidableEq

/-- A log event delivered by `connection.onLogs`. -/
structure Logs where
  signature : String
  logs : List String
deriving Repr, DecidableEq

/-- AI enrichment record (the parsed JSON response of the OpenAI call).
Fields the JSON body may omit are `Option`s. -/
structure AIAnalysis where
  threatLevel : String
  confidence : Int
  threats : Option (List String)
  recommendation : Option String
  explanation : Option String
deriving Repr, DecidableEq

/-- A threat record as produced by `analyzeTransaction` /
`analyzeAccountChange` and enriched by `combineAnalysis`. -/
structure Threat where
  type : String
  source : String
  riskScore : Nat
  threats : List String
  signature : Option String := none
  aiAnalysis : Option AIAnalysis := none
  recommendation : Option String := none
  knownThreats : List String := []
deriving Repr, DecidableEq

/-! ### Heuristic risk scorer (`transactionMonitor.js`) -/

/-- `isKnownProgram` from `transactionMonitor.js`. -/
def isKnownProgram (log : String) : Bool :=
  ["system program", "token program", "associated token", "spl-token",
   "jupiter", "raydium", "serum", "orca"].any
    (fun program => subOf (lowerChars program) (lowerChars log))

/-- Numeric value of a digit run (JS `parseInt` on the matched group). -/
def digitsToNat (ds : List Char) : Nat :=
  ds.foldl (fun a c => a * 10 + (c.toNat - 48)) 0

/-- Scan forward (regex `.*?` — `.` does not cross a newline) to the
first digit run. -/
def digitsAfter : List Char → Option (List Char)
  | [] => none
  | c :: t =>
    if c = '\n' then none
    else if c.isDigit then some (c :: t.takeWhile Char.isDigit)
    else digitsAfter t

/-- Leftmost match of `/transfer.*?(\d+)/i`: the first occurrence of
`transfer` that is followed, on the same line, by a digit run. -/
def findTransferAmount : List Char → Option Nat
  | [] => none
  | c :: t =>
    if ("transfer".data).isPrefixOf (c :: t) then
      match digitsAfter ((c :: t).drop 8) with
      | some ds => some (digitsToNat ds)
      | none => findTransferAmount t
    else findTransferAmount t

/-- `detectLargeTransfer` from `transactionMonitor.js`. -/
def detectLargeTransfer (log : String) : Bool :=
  match findTransferAmount (lowerChars log) with
  | some amount => amount > 1000000
  | none => false

/-- `detectSuspiciousProgram` from `transactionMonitor.js`. -/
def detectSuspiciousProgram (log : String) : Bool :=
  ["drainer", "stealer", "malicious", "phishing", "unknown_program"].any
    (fun pattern => subOf (lowerChars pattern) (lowerChars log))

/-- A scorer accumulator: the `threats` array and the `riskScore`
variable of `analyzeTransaction`. -/
abbrev ScoreAcc := List String × Nat

/-- Push one finding: `threats.push(desc); riskScore += w`. -/
def pushFinding (acc : ScoreAcc) (desc : String) (w : Nat) : ScoreAcc :=
  (acc.1 ++ [desc], acc.2 + w)

/-- The per-log-line checks of `analyzeTransaction`
(`logMessages.forEach(...)`). -/
def scanLine (acc : ScoreAcc) (log : String) : ScoreAcc :=
  let acc := if strIncludes log "transfer" && strIncludes log "authority" then
      pushFinding acc "Token authority transfer detected" 60 else acc
  let acc := if strIncludes log "invoke" && !isKnownProgram log then
      pushFinding acc "Interaction with unknown program" 30 else acc
  let acc := if strIncludes log "transfer" && detectLargeTransfer log then
      pushFinding acc "Large token transfer detected" 40 else acc
  let acc := if detectSuspiciousProgram log then
      pushFinding acc "Interaction with flagged program" 80 else acc
  let acc := if strIncludes log "approve" || strIncludes log "allowance" then
      pushFinding acc "Token approval detected - potential drainer" 50 else acc
  acc

/-- The balance-change loop: `postBalances[i] - (preBalances[i] || 0)`. -/
def balanceScan : List Int → List Int → ScoreAcc → ScoreAcc
  | [], _, acc => acc
  | p :: ps, pre, acc =>
    let change := p - pre.headD 0
    let acc := if change < -1000000 then
        pushFinding acc "Significant SOL balance decrease" 30 else acc
    balanceScan ps pre.tail acc

/-- The structural checks guarded by `if (transaction.meta)`. -/
def structScan (t : Transaction) (acc : ScoreAcc) : ScoreAcc :=
  match t.meta with
  | none => acc
  | some m =>
    let acc := if m.err then
        pushFinding acc "Transaction failed - possible attack attempt" 20 else acc
    let acc := if t.accountKeys.length > 10 then
        pushFinding acc "High number of account interactions" 25 else acc
    balanceScan m.postBalances m.preBalances acc

/-- Per-wallet registry entry (`monitoredWallets` values). -/
structure WalletInfo where
  userId : String
  subscriptionId : Option Nat := none
  logsSubscriptionId : Option Nat := none
  lastCheck : Int
  transactionCount : Nat := 0
  lastActivity : Option Int := none
  hadAccount : Bool := false
deriving Repr, DecidableEq

/-- The transaction-frequency check of `analyzeTransaction`, with the
floating-point rate comparison rendered exactly (see file header). -/
def freqScan (wi : Option WalletInfo) (now : Int) (acc : ScoreAcc) : ScoreAcc :=
  match wi with
  | none => acc
  | some w =>
    if w.transactionCount > 5 then
      if now - w.lastCheck < 0 then acc
      else if 60000 * (w.transactionCount : Int) > 2 * (now - w.lastCheck) then
        pushFinding acc "High transaction frequency detected" 35
      else acc
    else acc

/-- The full accumulation of `analyzeTransaction` (threat list and raw
score) for a present transaction. -/
def analyzeTransactionCore (t : Transaction) (logLines : List String)
    (wi : Option WalletInfo) (now : Int) : ScoreAcc :=
  freqScan wi now (structScan t (logLines.foldl scanLine ([], 0)))

/-- `analyzeTransaction` from `transactionMonitor.js`: `null` for an
absent transaction, otherwise a threat exactly when the accumulated
score exceeds 40. -/
def analyzeTransaction (tx : Option Transaction) (logs : Logs)
    (wi : Option WalletInfo) (now : Int) : Option Threat :=
  match tx with
  | none => none
  | some t =>
    let acc := analyzeTransactionCore t logs.logs wi now
    if acc.2 > 40 then
      some { type := if acc.2 ≥ 70 then "CRITICAL" else "WARNING",
             source := "Transaction Analysis",
             riskScore := acc.2,
             threats := acc.1,
             signature := some logs.signature }
    else none

/-- The accumulation step of `analyzeAccountChange`: a missing account
pushes a weight-70 finding, a zero-lamport account a weight-80 one. -/
def accountChangeCore (accountInfo : Option AccountInfo) : ScoreAcc :=
  match accountInfo with
  | none => (["Account closed or emptied"], 70)
  | some ai =>
    if ai.lamports = 0 then (["Account drained of SOL"], 80) else ([], 0)

/-- `analyzeAccountChange` from `transactionMonitor.js`. -/
def analyzeAccountChange (accountInfo : Option AccountInfo) : Option Threat :=
  let acc := accountChangeCore accountInfo
  if acc.2 > 50 then
    some { type := if acc.2 ≥ 70 then "CRITICAL" else "WARNING",
           source := "Account Change",
           riskScore := acc.2,
           threats := acc.1 }
  else none

/-! ### JS `Map` semantics over association lists -/

/-- `Map.prototype.get`. -/
def mapGet : List (String × α) → String → Option α
  | [], _ => none
  | p :: t, k => if p.1 = k then some p.2 else mapGet t k

/-- `Map.prototype.set`: update in place when present, append otherwise. -/
def mapSet (m : List (String × α)) (k : String) (v : α) : List (String × α) :=
  match m with
  | [] => [(k, v)]
  | p :: t => if p.1 = k then (k, v) :: t else p :: mapSet t k v

/-- `Map.prototype.delete`. -/
def mapDelete (m : List (String × α)) (k : String) : List (String × α) :=
  m.filter (fun p => p.1 ≠ k)

/-! ### Threat analyzer (`threatAnalyzer.js`) -/

/-- Per-wallet behavior profile (`walletProfiles` values). -/
structure WalletProfile where
  firstSeen : Int
  totalTransactions : Nat
  patterns : List String
  riskScore : Nat
  lastActivity : Int
deriving Repr, DecidableEq

/-- JS `Set.prototype.add`: insertion-ordered, ignores duplicates. -/
def setAdd (l : List String) (x : String) : List String :=
  if l.contains x then l else l ++ [x]

/-- Pattern extraction of `updateWalletProfile` for one log line. -/
def profilePatterns (pats : List String) (log : String) : List String :=
  let pats := if strIncludes log "transfer" then setAdd pats "transfer" else pats
  let pats := if strIncludes log "approve" then setAdd pats "approve" else pats
  let pats := if strIncludes log "authority" then setAdd pats "authority_change" else pats
  let pats := if strIncludes log "invoke" then setAdd pats "program_invoke" else pats
  pats

/-- `updateWalletProfile` from `threatAnalyzer.js`. -/
def updateWalletProfile (profiles : List (String × WalletProfile))
    (walletAddress : String) (logLines : List String) (now : Int) :
    List (String × WalletProfile) :=
  let profile :=
    match mapGet profiles walletAddress with
    | some p => p
    | none => { firstSeen := now, totalTransactions := 0, patterns := [],
                riskScore := 0, lastActivity := now }
  let profile := { profile with
    totalTransactions := profile.totalTransactions + 1,
    lastActivity := now,
    patterns := logLines.foldl profilePatterns profile.patterns }
  mapSet profiles walletAddress profile

/-- The fixed `threatDatabase` built by `initializeThreatDatabase`. -/
def threatDatabase : List (String × List String) :=
  [("token_drainer", ["approve", "transfer_all", "authority_change"]),
   ("phishing_site", ["multiple_approvals", "unknown_program", "urgent_transfer"]),
   ("rug_pull", ["liquidity_removal", "massive_sell", "dev_dump"])]

/-- `matchKnownThreats` from `threatAnalyzer.js`: database entries at
least two of whose patterns occur (case-insensitively) in some threat
string. -/
def matchKnownThreats (threats : List String) : List (String × List String) :=
  threatDatabase.filterMap (fun entry =>
    let m := entry.2.filter (fun pattern =>
      threats.any (fun t => subOf (lowerChars pattern) (lowerChars t)))
    if m.length ≥ 2 then some (entry.1, m) else none)

/-- JS `[...new Set([...a, ...b])]`: first-occurrence deduplication. -/
def jsSetDedup (l : List String) : List String :=
  l.foldl setAdd []

/-- The risk-score adjustment of `combineAnalysis`: the AI severity
opinion applies only when `aiAnalysis.confidence > 80`. -/
def aiAdjustScore (bt : Threat) (ai : AIAnalysis) : Nat :=
  if ai.confidence > 80 then
    if ai.threatLevel = "CRITICAL" then max bt.riskScore 90
    else if ai.threatLevel = "HIGH" then max bt.riskScore 75
    else bt.riskScore
  else bt.riskScore

/-- The threat-list combination of `combineAnalysis`:
`[...new Set([...enhancedThreat.threats, ...aiAnalysis.threats])]`,
guarded by `if (aiAnalysis.threats)`. -/
def aiCombineThreats (bt : Threat) (ai : AIAnalysis) : List String :=
  match ai.threats with
  | some l => jsSetDedup (bt.threats ++ l)
  | none => bt.threats

/-- The `if (aiAnalysis)` section of `combineAnalysis`. -/
def applyAI (bt : Threat) (aiAnalysis : Option AIAnalysis) : Threat :=
  match aiAnalysis with
  | none => bt
  | some ai =>
    { bt with riskScore := aiAdjustScore bt ai,
              threats := aiCombineThreats bt ai,
              aiAnalysis := some ai,
              recommendation := ai.recommendation }

/-- The known-threat-database section of `combineAnalysis`: a non-empty
match list forces the score up to at least 80. -/
def applyKnownThreats (t : Threat) : Threat :=
  let km := matchKnownThreats t.threats
  if km.isEmpty then t
  else { t with knownThreats := km.map (fun e => e.1),
                riskScore := max t.riskScore 80 }

/-- `combineAnalysis` from `threatAnalyzer.js` (the wallet-profile
narrative attachment carries no control flow and is not inspected by
any later step, so it is not reproduced here). -/
def combineAnalysis (basicThreat : Option Threat) (aiAnalysis : Option AIAnalysis) :
    Option Threat :=
  match basicThreat with
  | none => none
  | some bt => some (applyKnownThreats (applyAI bt aiAnalysis))

/-- The fallback object `parseAIResponse` returns when the response
holds no brace-delimited block. -/
def fallbackAnalysis : AIAnalysis :=
  { threatLevel := "MEDIUM", confidence := 50,
    threats := some ["AI analysis incomplete"],
    recommendation := some "Monitor closely",
    explanation := some "AI response could not be parsed" }

/-- The regex `/\x7b[\s\S]*\x7d/`: from the first opening brace to the
last closing brace after it, or no match. -/
def extractJsonBlock (s : String) : Option (List Char) :=
  match s.data.dropWhile (fun c => c ≠ '\x7b') with
  | [] => none
  | c :: rest =>
    let r := rest.reverse.dropWhile (fun c => c ≠ '\x7d')
    if r.isEmpty then none else some (c :: r.reverse)

/-- `parseAIResponse` from `threatAnalyzer.js`. `jsonParse` models the
platform `JSON.parse`; `none` models a parse exception, which the
function catches and converts to `null`. -/
def parseAIResponse (jsonParse : List Char → Option AIAnalysis)
    (aiResponse : String) : Option AIAnalysis :=
  match extractJsonBlock aiResponse with
  | some block => jsonParse block
  | none => some fallbackAnalysis

/-- `getAIAnalysis` from `threatAnalyzer.js`: the HTTP call is an
oracle; a timeout or error response throws and is caught, yielding
`null`, otherwise the body is parsed. -/
def getAIAnalysis (jsonParse : List Char → Option AIAnalysis)
    (post : Except Unit String) : Option AIAnalysis :=
  match post with
  | .error _ => none
  | .ok body => parseAIResponse jsonParse body

/-! ### Monitoring coordinator and alert pipeline

`TransactionMonitor` holds `monitoredWallets` and `threatCallbacks`;
`ThreatAnalyzer` holds `walletProfiles`; the bot holds the global
`threatAlerts` map.  The registered threat callback is the closure
`(address, threat) => handleThreatDetected(address, threat, userId, ctx)`,
so a callback is fully determined by the owning `userId`; the callback
map therefore stores the `userId`.  `delivered` records each outbound
threat notification (`sendWithOctopus` of the alert message) in order. -/

/-- A stored alert (`threatAlerts` values in the bot file). -/
structure StoredAlert where
  threat : Threat
  userId : String
  walletAddress : String
deriving Repr, DecidableEq

/-- One delivered threat notification. -/
structure DeliveredAlert where
  walletAddress : String
  userId : String
  signature : Option String
  riskScore : Nat
  threats : List String
deriving Repr, DecidableEq

/-- Combined mutable state of monitor, analyzer and bot alert storage. -/
structure SysState where
  monitoredWallets : List (String × WalletInfo) := []
  threatCallbacks : List (String × String) := []
  walletProfiles : List (String × WalletProfile) := []
  threatAlerts : List (String × StoredAlert) := []
  delivered : List DeliveredAlert := []
  emergencyCount : Nat := 0
deriving Repr, DecidableEq

/-- `analyzeTransactionWithAI` from `threatAnalyzer.js`: updates the
wallet profile, optionally obtains AI enrichment (`aiResult` collapses
the API-key check and the `getAIAnalysis` outcome into one value), and
combines.  Returns the new profile map and the enhanced threat. -/
def analyzeTransactionWithAI (profiles : List (String × WalletProfile))
    (walletAddress : String) (logLines : List String) (basicThreat : Threat)
    (now : Int) (aiResult : Option AIAnalysis) :
    List (String × WalletProfile) × Threat :=
  let profiles := updateWalletProfile profiles walletAddress logLines now
  let enhanced := (combineAnalysis (some basicThreat) aiResult).getD basicThreat
  (profiles, enhanced)

/-- `handleThreatDetected` from the bot file: enhances the basic threat
(passing `{ logs: basicThreat.threats }` as the log object), stores the
alert under the key `walletAddress + "-" + Date.now()`, and delivers
the alert message; a critical score additionally triggers the
emergency-alert path. -/
def handleThreatDetected (st : SysState) (walletAddress : String)
    (basicThreat : Threat) (userId : String) (now : Int)
    (aiResult : Option AIAnalysis) : SysState :=
  let pe := analyzeTransactionWithAI st.walletProfiles walletAddress
    basicThreat.threats basicThreat now aiResult
  let enhanced := pe.2
  let alertId := walletAddress ++ "-" ++ toString now
  { st with
    walletProfiles := pe.1,
    threatAlerts := mapSet st.threatAlerts alertId
      { threat := enhanced, userId := userId, walletAddress := walletAddress },
    delivered := st.delivered ++
      [{ walletAddress := walletAddress, userId := userId,
         signature := enhanced.signature, riskScore := enhanced.riskScore,
         threats := enhanced.threats }],
    emergencyCount := st.emergencyCount +
      (if enhanced.riskScore ≥ 80 then 1 else 0) }

/-- `sendThreatAlert` from `transactionMonitor.js`: invoke the wallet's
registered callback if one exists. -/
def sendThreatAlert (st : SysState) (walletAddress : String) (threat : Threat)
    (now : Int) (aiResult : Option AIAnalysis) : SysState :=
  match mapGet st.threatCallbacks walletAddress with
  | none => st
  | some userId => handleThreatDetected st walletAddress threat userId now aiResult

/-- `handleTransactionLogs` from `transactionMonitor.js`.  `fetchTx`
models `connection.getTransaction` (`.error` = thrown fetch failure,
`.ok none` = absent transaction); the surrounding `try/catch` makes a
thrown fetch drop the event after the counter update. -/
def handleTransactionLogs (st : SysState) (walletAddress : String)
    (logs : Logs) (now : Int) (fetchTx : Except Unit (Option Transaction))
    (aiResult : Option AIAnalysis) : SysState :=
  match mapGet st.monitoredWallets walletAddress with
  | none => st
  | some wi =>
    let wi := { wi with transactionCount := wi.transactionCount + 1,
                        lastActivity := some now }
    let st := { st with
      monitoredWallets := mapSet st.monitoredWallets walletAddress wi }
    match fetchTx with
    | .error _ => st
    | .ok tx =>
      match analyzeTransaction tx logs (mapGet st.monitoredWallets walletAddress) now with
      | none => st
      | some threat => sendThreatAlert st walletAddress threat now aiResult

/-- `handleAccountChange` from `transactionMonitor.js`. -/
def handleAccountChange (st : SysState) (walletAddress : String)
    (accountInfo : Option AccountInfo) (now : Int)
    (aiResult : Option AIAnalysis) : SysState :=
  match mapGet st.monitoredWallets walletAddress with
  | none => st
  | some _ =>
    match analyzeAccountChange accountInfo with
    | none => st
    | some threat => sendThreatAlert st walletAddress threat now aiResult

/-- `startMonitoring` from `transactionMonitor.js`.  `pkValid` models
`new PublicKey(walletAddress)` succeeding; `subAcct` / `subLogs` model
the two subscription calls (`.error` = thrown).  A throw lands in the
`catch`, which returns `false` and leaves whatever state was already
mutated. -/
def startMonitoring (st : SysState) (walletAddress userId : String)
    (now : Int) (pkValid : Bool) (subAcct subLogs : Except Unit Nat) :
    SysState × Bool :=
  if !pkValid then (st, false)
  else
    let info : WalletInfo := { userId := userId, lastCheck := now }
    let st := { st with
      monitoredWallets := mapSet st.monitoredWallets walletAddress info,
      threatCallbacks := mapSet st.threatCallbacks walletAddress userId }
    match subAcct with
    | .error _ => (st, false)
    | .ok sa =>
      match subLogs with
      | .error _ => (st, false)
      | .ok sl =>
        let info := { info with subscriptionId := some sa,
                                logsSubscriptionId := some sl }
        ({ st with monitoredWallets := mapSet st.monitoredWallets walletAddress info },
         true)

/-- `stopMonitoring` from `transactionMonitor.js`.  The unsubscribe
calls may throw (`.error`); the function-level `catch` then skips the
two `delete` calls, leaving the entry in both maps. -/
def stopMonitoring (st : SysState) (walletAddress : String)
    (unsubAcct unsubLogs : Except Unit Unit) : SysState :=
  match mapGet st.monitoredWallets walletAddress with
  | none => st
  | some info =>
    let step1 : Except Unit Unit :=
      if info.subscriptionId.isSome then unsubAcct else .ok ()
    match step1 with
    | .error _ => st
    | .ok _ =>
      let step2 : Except Unit Unit :=
        if info.logsSubscriptionId.isSome then unsubLogs else .ok ()
      match step2 with
      | .error _ => st
      | .ok _ =>
        { st with monitoredWallets := mapDelete st.monitoredWallets walletAddress,
                  threatCallbacks := mapDelete st.threatCallbacks walletAddress }

/-! ### Reconciliation sweep -/

/-- `performHealthCheck` from `transactionMonitor.js`, at the level of
one wallet's registry entry.  `gai` models `getAccountInfo`; a thrown
provider error is caught inside the function, skipping both the alert
and the `hadAccount` update.  The produced threat is routed through
`sendThreatAlert` by the source; the sweep theorems only concern its
existence. -/
def performHealthCheck (gai : Except Unit (Option AccountInfo))
    (wi : WalletInfo) : WalletInfo × Option Threat :=
  match gai with
  | .error _ => (wi, none)
  | .ok acct =>
    let alert :=
      if acct.isNone && wi.hadAccount then
        some { type := "CRITICAL", source := "Health Check", riskScore := 90,
               threats := ["Account no longer exists - possible drain"] }
      else none
    ({ wi with hadAccount := acct.isSome }, alert)

/-- The body of the per-wallet loop of `performPeriodicChecks`:
counter-reset on an expired window, then the health check.  Total
because every throwing step inside it is caught in the source. -/
def sweepOne (now : Int) (gai : String → Except Unit (Option AccountInfo))
    (entry : String × WalletInfo) : String × WalletInfo × Option Threat :=
  let w :=
    if now - entry.2.lastCheck > 300000 then
      { entry.2 with transactionCount := 0, lastCheck := now }
    else entry.2
  let hc := performHealthCheck (gai entry.1) w
  (entry.1, hc.1, hc.2)

/-- `performPeriodicChecks` from `transactionMonitor.js`: iterate over
the registered wallets, each iteration wrapped in its own `try/catch`. -/
def performPeriodicChecks (now : Int)
    (gai : String → Except Unit (Option AccountInfo)) :
    List (String × WalletInfo) → List (String × WalletInfo × Option Threat)
  | [] => []
  | e :: rest => sweepOne now gai e :: performPeriodicChecks now gai rest

/-! ### Findings-list view of the transaction scorer

The scorer pushes a description and adds a weight in adjacent
statements; the definitions below collect those (description, weight)
pairs per rule, so that the accumulated score can be related to the sum
of the weights of the matched findings. -/

/-- The findings one log line can contribute, in source order. -/
def lineFindings (log : String) : List (String × Nat) :=
  (if strIncludes log "transfer" && strIncludes log "authority" then
     [("Token authority transfer detected", 60)] else []) ++
  (if strIncludes log "invoke" && !isKnownProgram log then
     [("Interaction with unknown program", 30)] else []) ++
  (if strIncludes log "transfer" && detectLargeTransfer log then
     [("Large token transfer detected", 40)] else []) ++
  (if detectSuspiciousProgram log then
     [("Interaction with flagged program", 80)] else []) ++
  (if strIncludes log "approve" || strIncludes log "allowance" then
     [("Token approval detected - potential drainer", 50)] else [])

/-- The findings of the balance-change loop. -/
def balanceFindings : List Int → List Int → List (String × Nat)
  | [], _ => []
  | p :: ps, pre =>
    (if p - pre.headD 0 < -1000000 then
       [("Significant SOL balance decrease", 30)] else []) ++
    balanceFindings ps pre.tail

/-- The findings of the structural checks. -/
def structFindings (t : Transaction) : List (String × Nat) :=
  match t.meta with
  | none => []
  | some m =>
    (if m.err then
       [("Transaction failed - possible attack attempt", 20)] else []) ++
    (if t.accountKeys.length > 10 then
       [("High number of account interactions", 25)] else []) ++
    balanceFindings m.postBalances m.preBalances

/-- The finding of the frequency check. -/
def freqFindings (wi : Option WalletInfo) (now : Int) : List (String × Nat) :=
  match wi with
  | none => []
  | some w =>
    if w.transactionCount > 5 then
      if now - w.lastCheck < 0 then []
      else if 60000 * (w.transactionCount : Int) > 2 * (now - w.lastCheck) then
        [("High transaction frequency detected", 35)]
      else []
    else []

/-- All matched findings of one transaction evaluation, in the order
the source pushes them. -/
def transactionFindings (t : Transaction) (logLines : List String)
    (wi : Option WalletInfo) (now : Int) : List (String × Nat) :=
  (logLines.map lineFindings).flatten ++ structFindings t ++ freqFindings wi now

/-- Append a findings list to an accumulator: descriptions to the
threat list, weights summed onto the score. -/
def appFindings (acc : ScoreAcc) (fs : List (String × Nat)) : ScoreAcc :=
  (acc.1 ++ fs.map Prod.fst, acc.2 + (fs.map Prod.snd).sum)

/-- The split-state synchronization invariant of the monitor: the
`monitoredWallets` registry and the `threatCallbacks` table hold
entries for exactly the same wallet addresses. -/
def sameKeys (st : SysState) : Prop :=
  ∀ k, (mapGet st.monitoredWallets k).isSome
        ↔ (mapGet st.threatCallbacks k).isSome

/-! ### Supporting lemmas -/

theorem mapGet_set_self (m : List (String × α)) (k : String) (v : α) :
    mapGet (mapSet m k v) k = some v := by
  induction m with
  | nil => simp [mapSet, mapGet]
  | cons p t ih =>
    by_cases h : p.1 = k <;> simp [mapSet, mapGet, h, ih]

theorem mapGet_set_ne (m : List (String × α)) (k k' : String) (v : α)
    (h : k' ≠ k) : mapGet (mapSet m k v) k' = mapGet m k' := by
  have hkk : ¬(k = k') := fun e => h e.symm
  induction m with
  | nil => simp [mapSet, mapGet, hkk]
  | cons p t ih =>
    by_cases hp : p.1 = k
    · have hpk : ¬(p.1 = k') := by rw [hp]; exact hkk
      simp [mapSet, mapGet, hp, hpk, hkk]
    · simp [mapSet, mapGet, hp, ih]

theorem mapGet_delete_self (m : List (String × α)) (k : String) :
    mapGet (mapDelete m k) k = none := by
  induction m with
  | nil => rfl
  | cons p t ih =>
    by_cases h : p.1 = k
    · simpa [mapDelete, List.filter_cons, h] using ih
    · simpa [mapDelete, List.filter_cons, h, mapGet] using ih

theorem mapGet_delete_ne (m : List (String × α)) (k k' : String)
    (h : k' ≠ k) : mapGet (mapDelete m k) k' = mapGet m k' := by
  induction m with
  | nil => rfl
  | cons p t ih =>
    have ih' : mapGet (List.filter (fun p => !decide (p.1 = k)) t) k' = mapGet t k' := by
      simpa [mapDelete] using ih
    by_cases hp : p.1 = k
    · have hpk : ¬(p.1 = k') := by rw [hp]; exact fun e => h e.symm
      have hkk : ¬(k = k') := fun e => h e.symm
      simp [mapDelete, List.filter_cons, hp, mapGet, hpk, hkk, ih']
    · simp [mapDelete, List.filter_cons, hp, mapGet, ih']

theorem appFindings_nil (acc : ScoreAcc) : appFindings acc [] = acc := by
  simp [appFindings]

theorem appFindings_append (acc : ScoreAcc) (fs gs : List (String × Nat)) :
    appFindings acc (fs ++ gs) = appFindings (appFindings acc fs) gs := by
  simp [appFindings, Nat.add_assoc]

theorem pushFinding_eq (acc : ScoreAcc) (d : String) (w : Nat) :
    pushFinding acc d w = appFindings acc [(d, w)] := by
  simp [pushFinding, appFindings]

theorem scanLine_eq (acc : ScoreAcc) (log : String) :
    scanLine acc log = appFindings acc (lineFindings log) := by
  simp only [scanLine, lineFindings]
  split_ifs <;>
    simp [pushFinding, appFindings, Nat.add_assoc]

theorem foldl_scanLine (lines : List String) (acc : ScoreAcc) :
    lines.foldl scanLine acc = appFindings acc (lines.map lineFindings).flatten := by
  induction lines generalizing acc with
  | nil => simp [appFindings_nil]
  | cons l ls ih =>
    simp [List.foldl_cons, scanLine_eq, ih, ← appFindings_append]

theorem balanceScan_eq (post pre : List Int) (acc : ScoreAcc) :
    balanceScan post pre acc = appFindings acc (balanceFindings post pre) := by
  induction post generalizing pre acc with
  | nil => simp [balanceScan, balanceFindings, appFindings_nil]
  | cons p ps ih =>
    simp only [balanceScan, balanceFindings]
    split_ifs <;> simp [ih, pushFinding_eq, ← appFindings_append]

theorem structScan_eq (t : Transaction) (acc : ScoreAcc) :
    structScan t acc = appFindings acc (structFindings t) := by
  cases hm : t.meta with
  | none => simp [structScan, structFindings, hm, appFindings_nil]
  | some m =>
    simp only [structScan, structFindings, hm]
    split_ifs <;>
      simp [balanceScan_eq, pushFinding_eq, ← appFindings_append]

theorem freqScan_eq (wi : Option WalletInfo) (now : Int) (acc : ScoreAcc) :
    freqScan wi now acc = appFindings acc (freqFindings wi now) := by
  cases wi with
  | none => simp [freqScan, freqFindings, appFindings_nil]
  | some w =>
    simp only [freqScan, freqFindings]
    split_ifs <;> simp [pushFinding_eq, appFindings_nil]

theorem analyzeTransactionCore_eq (t : Transaction) (lines : List String)
    (wi : Option WalletInfo) (now : Int) :
    analyzeTransactionCore t lines wi now =
      appFindings ([], 0) (transactionFindings t lines wi now) := by
  simp [analyzeTransactionCore, transactionFindings, foldl_scanLine,
    structScan_eq, freqScan_eq, appFindings_append]

theorem setAdd_nodup (l : List String) (x : String) (h : l.Nodup) :
    (setAdd l x).Nodup := by
  by_cases hm : x ∈ l
  · simpa [setAdd, hm] using h
  · simp [setAdd, hm, List.nodup_append, h]

theorem foldl_setAdd_nodup (l : List String) :
    ∀ acc : List String, acc.Nodup → (l.foldl setAdd acc).Nodup := by
  induction l with
  | nil => intro acc h; simpa using h
  | cons x xs ih =>
    intro acc h
    exact ih (setAdd acc x) (setAdd_nodup acc x h)

theorem jsSetDedup_nodup (l : List String) : (jsSetDedup l).Nodup :=
  foldl_setAdd_nodup l [] List.nodup_nil

theorem applyKnownThreats_threats (t : Threat) :
    (applyKnownThreats t).threats = t.threats := by
  simp only [applyKnownThreats]
  split <;> rfl

theorem applyKnownThreats_signature (t : Threat) :
    (applyKnownThreats t).signature = t.signature := by
  simp only [applyKnownThreats]
  split <;> rfl

theorem applyKnownThreats_score_ge (t : Threat) :
    t.riskScore ≤ (applyKnownThreats t).riskScore := by
  simp only [applyKnownThreats]
  split
  · exact Nat.le_refl _
  · exact Nat.le_max_left _ _

theorem applyKnownThreats_score_cases (t : Threat) :
    (applyKnownThreats t).riskScore =
      (if (matchKnownThreats t.threats).isEmpty then t.riskScore
       else max t.riskScore 80) := by
  simp only [applyKnownThreats]
  split <;> simp_all

theorem aiAdjustScore_ge (bt : Threat) (ai : AIAnalysis) :
    bt.riskScore ≤ aiAdjustScore bt ai := by
  simp only [aiAdjustScore]
  split_ifs <;> first | exact Nat.le_max_left _ _ | exact Nat.le_refl _

theorem aiAdjustScore_low (bt : Threat) (ai : AIAnalysis)
    (h : ai.confidence ≤ 80) : aiAdjustScore bt ai = bt.riskScore := by
  simp [aiAdjustScore, show ¬(ai.confidence > 80) from not_lt.mpr h]

theorem applyAI_signature (bt : Threat) (ai : Option AIAnalysis) :
    (applyAI bt ai).signature = bt.signature := by
  cases ai <;> rfl

theorem applyAI_score_ge (bt : Threat) (ai : Option AIAnalysis) :
    bt.riskScore ≤ (applyAI bt ai).riskScore := by
  cases ai with
  | none => exact Nat.le_refl _
  | some a => exact aiAdjustScore_ge bt a

theorem combineAnalysis_getD_signature (bt : Threat) (ai : Option AIAnalysis) :
    ((combineAnalysis (some bt) ai).getD bt).signature = bt.signature := by
  simp [combineAnalysis, applyKnownThreats_signature, applyAI_signature]

theorem analyzeTransaction_signature (t : Transaction) (logs : Logs)
    (wi : Option WalletInfo) (now : Int) (th : Threat)
    (h : analyzeTransaction (some t) logs wi now = some th) :
    th.signature = some logs.signature := by
  by_cases h40 : (analyzeTransactionCore t logs.logs wi now).2 > 40
  · simp [analyzeTransaction, h40] at h
    rw [← h]
  · simp [analyzeTransaction, h40] at h

/-! ### Claims -/

/-- C3, counterexample.  The claim states that the transaction score is
clamped to [0,100] and never exceeds 100.  The source never clamps: two
log lines each matching the authority-transfer rule (+60) produce an
evaluation whose `riskScore` is 120. -/
theorem C3_counterexample :
    (analyzeTransaction (some { meta := none, accountKeys := [] })
        { signature := "sig1", logs := ["transfer authority", "transfer authority"] }
        none 0).map Threat.riskScore = some 120 ∧ (100 : Nat) < 120 := by
  constructor
  · rfl
  · decide

/-- C3, amended: the score of a transaction evaluation is the plain sum
of the weights of its matched findings, with no clamping (so it can
exceed 100, as the counterexample shows); the threat list is exactly
the findings' descriptions. -/
theorem C3_amended (t : Transaction) (lines : List String)
    (wi : Option WalletInfo) (now : Int) :
    (analyzeTransactionCore t lines wi now).1
        = (transactionFindings t lines wi now).map Prod.fst ∧
    (analyzeTransactionCore t lines wi now).2
        = ((transactionFindings t lines wi now).map Prod.snd).sum := by
  rw [analyzeTransactionCore_eq]
  constructor <;> simp [appFindings]

/-- C4: the transaction scorer returns a threat exactly when its
accumulated score exceeds 40; the account-change scorer exactly when
its score exceeds 50; a returned threat is CRITICAL exactly when its
score is at least 70 and WARNING otherwise; and an evaluation at or
below the threshold yields no delivered alert. -/
theorem C4_thresholds :
    (∀ (t : Transaction) (logs : Logs) (wi : Option WalletInfo) (now : Int),
        analyzeTransaction (some t) logs wi now ≠ none ↔
          (analyzeTransactionCore t logs.logs wi now).2 > 40) ∧
    (∀ (t : Transaction) (logs : Logs) (wi : Option WalletInfo) (now : Int)
        (th : Threat), analyzeTransaction (some t) logs wi now = some th →
          (th.type = "CRITICAL" ↔ th.riskScore ≥ 70) ∧
          (th.type = "WARNING" ↔ th.riskScore < 70)) ∧
    (∀ a : Option AccountInfo,
        analyzeAccountChange a ≠ none ↔ (accountChangeCore a).2 > 50) ∧
    (∀ (a : Option AccountInfo) (th : Threat), analyzeAccountChange a = some th →
        (th.type = "CRITICAL" ↔ th.riskScore ≥ 70)) ∧
    (∀ (st : SysState) (addr : String) (logs : Logs) (now : Int)
        (tx : Option Transaction) (ai : Option AIAnalysis),
        (∀ wi, analyzeTransaction tx logs wi now = none) →
          (handleTransactionLogs st addr logs now (.ok tx) ai).delivered
            = st.delivered) := by
  refine ⟨?_, ?_, ?_, ?_, ?_⟩
  · intro t logs wi now
    by_cases h : (analyzeTransactionCore t logs.logs wi now).2 > 40 <;>
      simp [analyzeTransaction, h]
  · intro t logs wi now th h
    by_cases h40 : (analyzeTransactionCore t logs.logs wi now).2 > 40
    · simp [analyzeTransaction, h40] at h
      by_cases h70 : (analyzeTransactionCore t logs.logs wi now).2 ≥ 70
      · simp [← h, h70]
      · simp [← h, h70]
        omega
    · simp [analyzeTransaction, h40] at h
  · intro a
    by_cases h : (accountChangeCore a).2 > 50 <;> simp [analyzeAccountChange, h]
  · intro a th h
    by_cases h50 : (accountChangeCore a).2 > 50
    · simp [analyzeAccountChange, h50] at h
      by_cases h70 : (accountChangeCore a).2 ≥ 70
      · simp [← h, h70]
      · simp [← h, h70]
    · simp [analyzeAccountChange, h50] at h
  · intro st addr logs now tx ai hnone
    cases hreg : mapGet st.monitoredWallets addr with
    | none => simp [handleTransactionLogs, hreg]
    | some wi => simp [handleTransactionLogs, hreg, hnone]

/-- C4, witness. -/
theorem C4_witness :
    (analyzeTransaction (some { meta := none, accountKeys := [] })
        { signature := "s", logs := ["transfer authority"] } none 0 ≠ none) ∧
    (({ type := "WARNING", source := "Transaction Analysis",
          riskScore := 60, threats := ["Token authority transfer detected"],
          signature := some "s" } : Threat).type = "CRITICAL"
      ↔ ({ type := "WARNING", source := "Transaction Analysis",
             riskScore := 60, threats := ["Token authority transfer detected"],
             signature := some "s" } : Threat).riskScore ≥ 70) ∧
    (analyzeAccountChange none ≠ none) ∧
    (({ type := "CRITICAL", source := "Account Change",
          riskScore := 70, threats := ["Account closed or emptied"] } : Threat).type = "CRITICAL"
      ↔ ({ type := "CRITICAL", source := "Account Change",
             riskScore := 70, threats := ["Account closed or emptied"] } : Threat).riskScore ≥ 70) ∧
    ((handleTransactionLogs {} "W1" { signature := "s", logs := [] } 0
        (.ok none) none).delivered = SysState.delivered {}) := by
  refine ⟨?_, ?_, ?_, ?_, ?_⟩
  · exact (C4_thresholds.1 _ _ _ _).mpr (by decide)
  · exact (C4_thresholds.2.1 { meta := none, accountKeys := [] }
      { signature := "s", logs := ["transfer authority"] } none 0 _ (by decide)).1
  · exact (C4_thresholds.2.2.1 _).mpr (by decide)
  · exact C4_thresholds.2.2.2.1 none _ (by decide)
  · exact C4_thresholds.2.2.2.2 {} "W1" { signature := "s", logs := [] } 0
      none none (fun wi => rfl)

/-- C8: a missing account yields a weight-70 finding and a CRITICAL
evaluation; a present account with zero lamports yields score ≥ 80 and
CRITICAL.  (The source fires the zero-lamport rule regardless of the
previous balance, which subsumes the claim's previously-funded case.) -/
theorem C8_account_snapshot :
    (∃ th, analyzeAccountChange none = some th ∧ 70 ≤ th.riskScore ∧
        th.type = "CRITICAL" ∧ "Account closed or emptied" ∈ th.threats) ∧
    (∀ ai : AccountInfo, ai.lamports = 0 →
        ∃ th, analyzeAccountChange (some ai) = some th ∧ 80 ≤ th.riskScore ∧
          th.type = "CRITICAL" ∧ "Account drained of SOL" ∈ th.threats) := by
  constructor
  · exact ⟨_, rfl, by decide, by decide, by decide⟩
  · intro ai h0
    obtain ⟨l⟩ := ai
    simp only [AccountInfo.lamports] at h0
    subst h0
    exact ⟨_, rfl, by decide, by decide, by decide⟩

/-- C8, witness. -/
theorem C8_witness :
    ∃ th, analyzeAccountChange (some { lamports := 0 }) = some th ∧
      80 ≤ th.riskScore ∧ th.type = "CRITICAL" ∧
      "Account drained of SOL" ∈ th.threats :=
  C8_account_snapshot.2 { lamports := 0 } rfl

/-- C6, counterexample.  The claim states that a response body without
well-formed JSON yields an absent (null) enrichment.  The source's
`parseAIResponse` only returns null when the brace-delimited extract
fails to parse; a body with no brace-delimited block at all falls
through to a non-null fallback object (MEDIUM, confidence 50) — even
under a JSON parser that never succeeds. -/
theorem C6_counterexample :
    getAIAnalysis (fun _ => none) (.ok "no json here") = some fallbackAnalysis ∧
    getAIAnalysis (fun _ => none) (.ok "no json here") ≠ none := by
  constructor
  · rfl
  · decide

/-- C6, amended: a timeout or error response yields absent enrichment;
a body with a brace-delimited block yields exactly the parser's result
(so a parse failure yields absent); but a body with no brace-delimited
block yields the non-null fallback enrichment instead of absent.  With
absent enrichment, the base threat passes through `combineAnalysis`
unchanged whenever its own finding strings match no known-threat
database entry. -/
theorem C6_amended :
    (∀ jsonParse : List Char → Option AIAnalysis,
        getAIAnalysis jsonParse (.error ()) = none) ∧
    (∀ (jsonParse : List Char → Option AIAnalysis) (body : String)
        (block : List Char), extractJsonBlock body = some block →
        getAIAnalysis jsonParse (.ok body) = jsonParse block) ∧
    (∀ (jsonParse : List Char → Option AIAnalysis) (body : String),
        extractJsonBlock body = none →
        getAIAnalysis jsonParse (.ok body) = some fallbackAnalysis) ∧
    (∀ bt : Threat, matchKnownThreats bt.threats = [] →
        combineAnalysis (some bt) none = some bt) := by
  refine ⟨fun _ => rfl, ?_, ?_, ?_⟩
  · intro jsonParse body block hb
    simp [getAIAnalysis, parseAIResponse, hb]
  · intro jsonParse body hb
    simp [getAIAnalysis, parseAIResponse, hb]
  · intro bt hm
    simp [combineAnalysis, applyAI, applyKnownThreats, hm]

/-- C6, witness. -/
theorem C6_witness :
    (getAIAnalysis (fun _ => none) (.error ()) = none) ∧
    (getAIAnalysis (fun _ => some fallbackAnalysis) (.ok "a\x7bj\x7dc")
        = some fallbackAnalysis) ∧
    (getAIAnalysis (fun _ => none) (.ok "plain text") = some fallbackAnalysis) ∧
    (combineAnalysis
        (some { type := "WARNING", source := "Transaction Analysis",
                riskScore := 10, threats := ["x"] }) none
      = some { type := "WARNING", source := "Transaction Analysis",
               riskScore := 10, threats := ["x"] }) := by
  refine ⟨C6_amended.1 _, ?_, ?_, ?_⟩
  · exact C6_amended.2.1 _ "a\x7bj\x7dc" ['\x7b', 'j', '\x7d'] (by decide)
  · exact C6_amended.2.2.1 _ "plain text" (by decide)
  · exact C6_amended.2.2.2 _ (by decide)

/-- C7, counterexample.  The claim states that an enrichment with
confidence at most 80 leaves score and severity unchanged.  Here an
enrichment with confidence 50 contributes the labels "approve" and
"transfer_all"; the known-threat database then matches two
`token_drainer` patterns on the unioned list and raises the score from
50 to 80 (crossing the bot's critical-alert tier). -/
theorem C7_counterexample :
    (combineAnalysis
        (some { type := "WARNING", source := "Transaction Analysis",
                riskScore := 50, threats := ["x"] })
        (some { threatLevel := "LOW", confidence := 50,
                threats := some ["approve", "transfer_all"],
                recommendation := none, explanation := none })).map Threat.riskScore
      = some 80 ∧ (80 : Nat) ≠ 50 := by
  constructor
  · rfl
  · decide

/-- C7, amended: the merge never lowers the score; when the AI
confidence is at most 80 the severity opinion is ignored, so the output
threat list is exactly the set-semantic union and the score changes
only through the known-threat-database bump to 80 (as the
counterexample exhibits); and whenever the AI supplies a label list the
resulting threat list has no duplicates. -/
theorem C7_merge :
    (∀ (bt : Threat) (ai : Option AIAnalysis) (th : Threat),
        combineAnalysis (some bt) ai = some th → bt.riskScore ≤ th.riskScore) ∧
    (∀ (bt : Threat) (ai : AIAnalysis) (th : Threat), ai.confidence ≤ 80 →
        combineAnalysis (some bt) (some ai) = some th →
          th.threats = aiCombineThreats bt ai ∧
          th.riskScore = (if (matchKnownThreats (aiCombineThreats bt ai)).isEmpty
                          then bt.riskScore else max bt.riskScore 80)) ∧
    (∀ (bt : Threat) (ai : AIAnalysis) (l : List String) (th : Threat),
        ai.threats = some l → combineAnalysis (some bt) (some ai) = some th →
          th.threats.Nodup) := by
  refine ⟨?_, ?_, ?_⟩
  · intro bt ai th h
    simp [combineAnalysis] at h
    calc bt.riskScore ≤ (applyAI bt ai).riskScore := applyAI_score_ge bt ai
      _ ≤ (applyKnownThreats (applyAI bt ai)).riskScore :=
        applyKnownThreats_score_ge _
      _ = th.riskScore := by rw [h]
  · intro bt ai th hc h
    simp [combineAnalysis] at h
    have hthreats : (applyAI bt (some ai)).threats = aiCombineThreats bt ai := rfl
    have hscore : (applyAI bt (some ai)).riskScore = bt.riskScore := by
      simp [applyAI, aiAdjustScore_low bt ai hc]
    constructor
    · rw [← h, applyKnownThreats_threats, hthreats]
    · rw [← h, applyKnownThreats_score_cases, hthreats, hscore]
  · intro bt ai l th hl h
    have : th.threats = aiCombineThreats bt ai := by
      simp [combineAnalysis] at h
      rw [← h, applyKnownThreats_threats]
      rfl
    rw [this, aiCombineThreats, hl]
    exact jsSetDedup_nodup _

/-- C7, witness. -/
theorem C7_witness :
    (50 : Nat) ≤ 80 ∧ (["x", "approve", "transfer_all"] : List String).Nodup := by
  constructor
  · exact C7_merge.1
      { type := "WARNING", source := "Transaction Analysis", riskScore := 50, threats := ["x"] }
      (some { threatLevel := "LOW", confidence := 50, threats := some ["approve", "transfer_all"], recommendation := none, explanation := none })
      { type := "WARNING", source := "Transaction Analysis", riskScore := 80, threats := ["x", "approve", "transfer_all"], signature := none, aiAnalysis := some { threatLevel := "LOW", confidence := 50, threats := some ["approve", "transfer_all"], recommendation := none, explanation := none }, recommendation := none, knownThreats := ["token_drainer"] }
      (by decide)
  · have h := C7_merge.2.2
      { type := "WARNING", source := "Transaction Analysis", riskScore := 50, threats := ["x"] }
      { threatLevel := "LOW", confidence := 50, threats := some ["approve", "transfer_all"], recommendation := none, explanation := none }
      ["approve", "transfer_all"]
      { type := "WARNING", source := "Transaction Analysis", riskScore := 80, threats := ["x", "approve", "transfer_all"], signature := none, aiAnalysis := some { threatLevel := "LOW", confidence := 50, threats := some ["approve", "transfer_all"], recommendation := none, explanation := none }, recommendation := none, knownThreats := ["token_drainer"] }
      rfl (by decide)
    exact h

/-- C1, counterexample.  The claim states at most one delivered Alert
per (wallet, signature) key, the second event being merged.  The
pipeline keeps no dedup state: two log events for wallet `W1` carrying
the same signature `sig1` each flow through callback delivery, leaving
two delivered alerts for the same key. -/
theorem C1_counterexample :
    ((handleTransactionLogs
        (handleTransactionLogs
          { monitoredWallets := [("W1", { userId := "U1", lastCheck := 0 })],
            threatCallbacks := [("W1", "U1")] }
          "W1" { signature := "sig1", logs := ["transfer authority"] } 1
          (.ok (some { meta := none, accountKeys := [] })) none)
        "W1" { signature := "sig1", logs := ["transfer authority"] } 2
        (.ok (some { meta := none, accountKeys := [] })) none).delivered.filter
      (fun d => d.walletAddress == "W1" && d.signature == some "sig1")).length
      = 2 := by
  decide

/-- C1, amended: the engine maintains no deduplication state, so every
qualifying log event (registered wallet, registered callback,
evaluation above threshold) appends exactly one freshly delivered
Alert carrying the event's signature, regardless of what was delivered
before — two events sharing a signature are each delivered, the second
is not merged. -/
theorem C1_amended (st : SysState) (addr : String) (logs : Logs) (now : Int)
    (tx : Transaction) (ai : Option AIAnalysis) (wi : WalletInfo) (uid : String)
    (bt : Threat)
    (hw : mapGet st.monitoredWallets addr = some wi)
    (hc : mapGet st.threatCallbacks addr = some uid)
    (ht : analyzeTransaction (some tx) logs
        (some { wi with transactionCount := wi.transactionCount + 1,
                        lastActivity := some now }) now = some bt) :
    ∃ d : DeliveredAlert, d.walletAddress = addr ∧ d.userId = uid ∧
      d.signature = some logs.signature ∧
      (handleTransactionLogs st addr logs now (.ok (some tx)) ai).delivered
        = st.delivered ++ [d] := by
  refine ⟨{ walletAddress := addr, userId := uid,
            signature := ((combineAnalysis (some bt) ai).getD bt).signature,
            riskScore := ((combineAnalysis (some bt) ai).getD bt).riskScore,
            threats := ((combineAnalysis (some bt) ai).getD bt).threats },
    rfl, rfl, ?_, ?_⟩
  · rw [combineAnalysis_getD_signature]
    exact analyzeTransaction_signature _ _ _ _ _ ht
  · simp only [handleTransactionLogs, hw, mapGet_set_self, ht, sendThreatAlert,
      hc, handleThreatDetected, analyzeTransactionWithAI]

/-- C1, witness. -/
theorem C1_witness :
    ∃ d : DeliveredAlert, d.walletAddress = "W1" ∧ d.userId = "U1" ∧
      d.signature = some "sig1" ∧
      (handleTransactionLogs
          { monitoredWallets := [("W1", { userId := "U1", lastCheck := 0 })],
            threatCallbacks := [("W1", "U1")] }
          "W1" { signature := "sig1", logs := ["transfer authority"] } 1
          (.ok (some { meta := none, accountKeys := [] })) none).delivered
        = SysState.delivered
            { monitoredWallets := [("W1", { userId := "U1", lastCheck := 0 })],
              threatCallbacks := [("W1", "U1")] } ++ [d] := by
  exact C1_amended
    { monitoredWallets := [("W1", { userId := "U1", lastCheck := 0 })],
      threatCallbacks := [("W1", "U1")] }
    "W1" { signature := "sig1", logs := ["transfer authority"] } 1
    { meta := none, accountKeys := [] } none
    { userId := "U1", lastCheck := 0 } "U1"
    { type := "WARNING", source := "Transaction Analysis", riskScore := 60,
      threats := ["Token authority transfer detected"], signature := some "sig1" }
    rfl rfl (by decide)

/-- C2, counterexample.  The claim states that an event whose
transaction cannot be obtained is still evaluated with null transaction
metadata and produces an evaluation with a single +10 analysis-error
finding.  In the source, a null transaction makes `analyzeTransaction`
return null on its first line without scanning any log line, and a
thrown fetch is caught at the handler boundary, dropping the event
entirely (only the activity counters are updated — no evaluation, no
stored or delivered alert, no profile update). -/
theorem C2_counterexample :
    analyzeTransaction none
        { signature := "sig1", logs := ["transfer authority"] } none 0 = none ∧
    handleTransactionLogs
        { monitoredWallets := [("W1", { userId := "U1", lastCheck := 0 })],
          threatCallbacks := [("W1", "U1")] }
        "W1" { signature := "sig1", logs := ["transfer authority"] } 1
        (.error ()) none
      = { monitoredWallets :=
            [("W1", { userId := "U1", lastCheck := 0,
                      transactionCount := 1, lastActivity := some 1 })],
          threatCallbacks := [("W1", "U1")] } := by
  constructor
  · rfl
  · decide

/-- C2, amended: a thrown transaction fetch is caught at the
log-handler boundary — the monitoring loop does not abort, the wallet
counters are still updated, but the event is dropped with no evaluation
and no alert; and a fetch that returns a null transaction makes
`analyzeTransaction` return null immediately, with no analysis-error
finding synthesized. -/
theorem C2_amended (st : SysState) (addr : String) (logs : Logs) (now : Int)
    (ai : Option AIAnalysis) (wi : WalletInfo)
    (hw : mapGet st.monitoredWallets addr = some wi) :
    handleTransactionLogs st addr logs now (.error ()) ai
      = { st with
          monitoredWallets :=
            mapSet st.monitoredWallets addr
              { wi with
                  transactionCount := wi.transactionCount + 1,
                  lastActivity := some now } } ∧
    (∀ (wi' : Option WalletInfo) (now' : Int),
        analyzeTransaction none logs wi' now' = none) := by
  constructor
  · simp only [handleTransactionLogs, hw]
  · intro _ _
    rfl

/-- C2, witness. -/
theorem C2_witness :
    handleTransactionLogs
        { monitoredWallets := [("W1", { userId := "U1", lastCheck := 0 })],
          threatCallbacks := [("W1", "U1")] }
        "W1" { signature := "sig1", logs := [] } 1 (.error ()) none
      = { monitoredWallets :=
            [("W1", { userId := "U1", lastCheck := 0,
                      transactionCount := 1, lastActivity := some 1 })],
          threatCallbacks := [("W1", "U1")] } ∧
    analyzeTransaction none { signature := "sig1", logs := [] } none 0 = none := by
  constructor
  · exact (C2_amended
      { monitoredWallets := [("W1", { userId := "U1", lastCheck := 0 })],
        threatCallbacks := [("W1", "U1")] }
      "W1" { signature := "sig1", logs := [] } 1 none
      { userId := "U1", lastCheck := 0 } rfl).1
  · exact (C2_amended
      { monitoredWallets := [("W1", { userId := "U1", lastCheck := 0 })],
        threatCallbacks := [("W1", "U1")] }
      "W1" { signature := "sig1", logs := [] } 1 none
      { userId := "U1", lastCheck := 0 } rfl).2 none 0

/-- C5, counterexample.  The claim states that the wallet behavior
profile is updated on every transaction event and dropped on unwatch.
A sub-threshold event (a single +30 finding, score 30 ≤ 40) never
reaches the analyzer, so no profile is created; and `stopMonitoring`
never touches `walletProfiles`, so the profile created by a delivered
alert survives unwatching (the registry entry is gone, the profile
remains). -/
theorem C5_counterexample :
    (handleTransactionLogs
        { monitoredWallets := [("W1", { userId := "U1", lastCheck := 0 })],
          threatCallbacks := [("W1", "U1")] }
        "W1" { signature := "sig2", logs := ["invoke foo"] } 1
        (.ok (some { meta := none, accountKeys := [] })) none).walletProfiles
      = [] ∧
    (stopMonitoring
        (handleTransactionLogs
          { monitoredWallets := [("W1", { userId := "U1", lastCheck := 0 })],
            threatCallbacks := [("W1", "U1")] }
          "W1" { signature := "sig1", logs := ["transfer authority"] } 1
          (.ok (some { meta := none, accountKeys := [] })) none)
        "W1" (.ok ()) (.ok ())).walletProfiles
      = (handleTransactionLogs
          { monitoredWallets := [("W1", { userId := "U1", lastCheck := 0 })],
            threatCallbacks := [("W1", "U1")] }
          "W1" { signature := "sig1", logs := ["transfer authority"] } 1
          (.ok (some { meta := none, accountKeys := [] })) none).walletProfiles ∧
    mapGet (stopMonitoring
        (handleTransactionLogs
          { monitoredWallets := [("W1", { userId := "U1", lastCheck := 0 })],
            threatCallbacks := [("W1", "U1")] }
          "W1" { signature := "sig1", logs := ["transfer authority"] } 1
          (.ok (some { meta := none, accountKeys := [] })) none)
        "W1" (.ok ()) (.ok ())).monitoredWallets "W1" = none ∧
    mapGet (stopMonitoring
        (handleTransactionLogs
          { monitoredWallets := [("W1", { userId := "U1", lastCheck := 0 })],
            threatCallbacks := [("W1", "U1")] }
          "W1" { signature := "sig1", logs := ["transfer authority"] } 1
          (.ok (some { meta := none, accountKeys := [] })) none)
        "W1" (.ok ()) (.ok ())).walletProfiles "W1" ≠ none := by
  refine ⟨by decide, by decide, by decide, by decide⟩

/-- C5, amended: the wallet behavior profile is updated exactly when a
threat passes the reporting threshold and the registered callback's
AI-analysis path runs (which feeds the threat's finding descriptions,
not the original log lines, to the profile); sub-threshold events leave
the profile map untouched; and unwatching never drops a profile —
`stopMonitoring` leaves `walletProfiles` unchanged on every path. -/
theorem C5_amended :
    (∀ (st : SysState) (addr : String) (uA uL : Except Unit Unit),
        (stopMonitoring st addr uA uL).walletProfiles = st.walletProfiles) ∧
    (∀ (st : SysState) (addr : String) (logs : Logs) (now : Int)
        (tx : Option Transaction) (ai : Option AIAnalysis),
        (∀ wi, analyzeTransaction tx logs wi now = none) →
        (handleTransactionLogs st addr logs now (.ok tx) ai).walletProfiles
          = st.walletProfiles) ∧
    (∀ (st : SysState) (addr : String) (bt : Threat) (uid : String)
        (now : Int) (ai : Option AIAnalysis),
        (handleThreatDetected st addr bt uid now ai).walletProfiles
          = updateWalletProfile st.walletProfiles addr bt.threats now) := by
  refine ⟨?_, ?_, ?_⟩
  · intro st addr uA uL
    cases hg : mapGet st.monitoredWallets addr with
    | none => simp [stopMonitoring, hg]
    | some info =>
      simp only [stopMonitoring, hg]
      split
      · rfl
      · split <;> rfl
  · intro st addr logs now tx ai hnone
    cases hreg : mapGet st.monitoredWallets addr with
    | none => simp [handleTransactionLogs, hreg]
    | some wi => simp [handleTransactionLogs, hreg, hnone]
  · intro st addr bt uid now ai
    rfl

/-- C5, witness. -/
theorem C5_witness :
    (stopMonitoring
        { monitoredWallets := [("W1", { userId := "U1", lastCheck := 0 })],
          threatCallbacks := [("W1", "U1")],
          walletProfiles := [("W1", { firstSeen := 0, totalTransactions := 1,
                                      patterns := ["transfer"], riskScore := 0,
                                      lastActivity := 0 })] }
        "W1" (.ok ()) (.ok ())).walletProfiles
      = SysState.walletProfiles
          { monitoredWallets := [("W1", { userId := "U1", lastCheck := 0 })],
            threatCallbacks := [("W1", "U1")],
            walletProfiles := [("W1", { firstSeen := 0, totalTransactions := 1,
                                        patterns := ["transfer"], riskScore := 0,
                                        lastActivity := 0 })] } ∧
    (handleTransactionLogs
        { monitoredWallets := [("W1", { userId := "U1", lastCheck := 0 })],
          threatCallbacks := [("W1", "U1")] }
        "W1" { signature := "s", logs := [] } 0 (.ok none) none).walletProfiles
      = SysState.walletProfiles
          { monitoredWallets := [("W1", { userId := "U1", lastCheck := 0 })],
            threatCallbacks := [("W1", "U1")] } := by
  constructor
  · exact C5_amended.1 _ "W1" (.ok ()) (.ok ())
  · exact C5_amended.2.1 _ "W1" { signature := "s", logs := [] } 0 none none
      (fun wi => rfl)

/-- C9: the reconciliation sweep visits every registered wallet exactly
once per tick (the address list of the outcomes equals the registry's
address list), each wallet's outcome is computed independently by the
per-wallet body, and that body depends only on the wallet's own
provider oracle — so one wallet's thrown existence check cannot change
any other wallet's outcome. -/
theorem C9_sweep :
    (∀ (now : Int) (gai : String → Except Unit (Option AccountInfo))
        (ws : List (String × WalletInfo)),
        (performPeriodicChecks now gai ws).map (fun r => r.1)
          = ws.map (fun e => e.1)) ∧
    (∀ (now : Int) (gai : String → Except Unit (Option AccountInfo))
        (ws : List (String × WalletInfo)),
        performPeriodicChecks now gai ws = ws.map (sweepOne now gai)) ∧
    (∀ (now : Int) (gai gai' : String → Except Unit (Option AccountInfo))
        (e : String × WalletInfo), gai e.1 = gai' e.1 →
        sweepOne now gai e = sweepOne now gai' e) := by
  refine ⟨?_, ?_, ?_⟩
  · intro now gai ws
    induction ws with
    | nil => rfl
    | cons e rest ih => simp [performPeriodicChecks, sweepOne, ih]
  · intro now gai ws
    induction ws with
    | nil => rfl
    | cons e rest ih => simp [performPeriodicChecks, ih]
  · intro now gai gai' e h
    simp [sweepOne, h]

/-- C9, witness: with three wallets where the middle wallet's existence
check throws, the sweep still visits A, B and C, and A's outcome equals
its outcome under a never-failing provider. -/
theorem C9_witness :
    (performPeriodicChecks 0
        (fun a => if a = "B" then .error () else .ok none)
        [("A", { userId := "u", lastCheck := 0 }),
         ("B", { userId := "u", lastCheck := 0 }),
         ("C", { userId := "u", lastCheck := 0 })]).map (fun r => r.1)
      = ["A", "B", "C"] ∧
    sweepOne 0 (fun a => if a = "B" then .error () else .ok none)
        ("A", { userId := "u", lastCheck := 0 })
      = sweepOne 0 (fun _ => .ok none) ("A", { userId := "u", lastCheck := 0 }) := by
  constructor
  · exact C9_sweep.1 0 _ _
  · exact C9_sweep.2.2 0 _ _ ("A", { userId := "u", lastCheck := 0 }) rfl

/-- C10: after every `startMonitoring` and every `stopMonitoring`,
including all failure paths (invalid key, thrown subscription calls,
thrown unsubscribe calls), the `monitoredWallets` registry and the
`threatCallbacks` table contain exactly the same wallet addresses. -/
theorem C10_registry_callback_sync :
    ∀ st : SysState, sameKeys st →
      (∀ (addr uid : String) (now : Int) (pkValid : Bool)
          (subAcct subLogs : Except Unit Nat),
          sameKeys (startMonitoring st addr uid now pkValid subAcct subLogs).1) ∧
      (∀ (addr : String) (unsubAcct unsubLogs : Except Unit Unit),
          sameKeys (stopMonitoring st addr unsubAcct unsubLogs)) := by
  intro st h
  constructor
  · intro addr uid now pkValid sA sL
    cases pkValid with
    | false => simpa [startMonitoring] using h
    | true =>
      cases sA with
      | error e =>
        intro k
        by_cases hk : k = addr
        · subst hk
          simp [startMonitoring, mapGet_set_self]
        · simp [startMonitoring, mapGet_set_ne _ _ _ _ hk, h k]
      | ok sa =>
        cases sL with
        | error e =>
          intro k
          by_cases hk : k = addr
          · subst hk
            simp [startMonitoring, mapGet_set_self]
          · simp [startMonitoring, mapGet_set_ne _ _ _ _ hk, h k]
        | ok sl =>
          intro k
          by_cases hk : k = addr
          · subst hk
            simp [startMonitoring, mapGet_set_self]
          · simp [startMonitoring, mapGet_set_ne _ _ _ _ hk, h k]
  · intro addr uA uL
    cases hg : mapGet st.monitoredWallets addr with
    | none => simpa [stopMonitoring, hg] using h
    | some info =>
      simp only [stopMonitoring, hg]
      split
      · exact h
      · split
        · exact h
        · intro k
          by_cases hk : k = addr
          · subst hk
            simp [mapGet_delete_self]
          · simp [mapGet_delete_ne _ _ _ hk, h k]

/-- C10, witness. -/
theorem C10_witness :
    sameKeys (startMonitoring {} "W1" "U1" 0 true (.ok 1) (.ok 2)).1 ∧
    sameKeys (stopMonitoring {} "W1" (.ok ()) (.ok ())) := by
  have h0 : sameKeys {} := fun k => Iff.rfl
  exact ⟨(C10_registry_callback_sync {} h0).1 "W1" "U1" 0 true (.ok 1) (.ok 2),
         (C10_registry_callback_sync {} h0).2 "W1" (.ok ()) (.ok ())⟩

end RedAlert
